import Mathlib

/-
Verification of the multi-tier chat response pipeline of the restaurant AI
platform: a shallow embedding of the classifier, item resolver, instant
response table, deterministic knowledge cache, semantic response cache,
configuration validation and the streaming fallback ladder, with theorems
settling the specification claims.

Conventions of the embedding:
* Python strings are lists of characters (Str); str.lower is modelled on the
  ASCII range, which covers every pattern, table key and menu name involved.
* Monetary prices (Python floats rendered with two decimals) are modelled in
  cents as naturals; Python float truthiness (0.0 falsy) becomes price = 0.
* The Redis client is a partial map from key strings to value strings; TTL
  bookkeeping is abstracted away (entries never expire inside a theorem).
* Exception-free execution of the external clients is assumed: try/except
  blocks that merely guard client failures are modelled by their happy path.
-/

abbrev Str := List Char

/-- Characters removed by Python str.strip (ASCII whitespace). -/
def isPySpace (c : Char) : Bool :=
  c = ' ' || c = '\t' || c = '\n' || c = '\r' || c = '\x0b' || c = '\x0c'

/-- Per-character lower casing, the ASCII model of Python str.lower. -/
def lowerChar (c : Char) : Char :=
  if 'A' ≤ c && c ≤ 'Z' then Char.ofNat (c.toNat + 32) else c

/-- Python str.lower on a whole string (ASCII model). -/
def lowerStr (s : Str) : Str := s.map lowerChar

/-- Python str.strip: drop whitespace at both ends. -/
def stripStr (s : Str) : Str :=
  ((s.dropWhile isPySpace).reverse.dropWhile isPySpace).reverse

/-- Python substring containment test, a in b. -/
def isSubstrOf (a : Str) : Str → Bool
  | [] => a.isEmpty
  | b@(_ :: t) => a.isPrefixOf b || isSubstrOf a t

/-- Python \w characters (ASCII model): letters, digits and underscore. -/
def isWordChar (c : Char) : Bool := c.isAlphanum || c = '_'

/-
Regular expressions.  The cacheable question patterns of
MenuCacheService.cacheable_patterns use only literal characters,
non-capturing optional groups, a two-way non-capturing alternation and the
greedy capturing group (.+).  The engine below implements exactly these
constructs with the backtracking order of the Python re module: ordered
alternation tries the left branch first, a greedy option tries its body
first, and a greedy dot-plus tries the longest prefix first; re.search
scans candidate start positions from the left.
-/

/-- Regular-expression syntax for the cacheable question patterns. -/
inductive RE where
  | eps : RE
  | ch (c : Char) : RE
  | cat (r1 r2 : RE) : RE
  | alt (r1 r2 : RE) : RE
  | opt (r : RE) : RE
  | grp : RE

/-- Length of the run of characters a Python dot can match (anything except
newline) at the head of the input. -/
def dotRun (s : Str) : Nat := (s.takeWhile (fun c => c ≠ '\n')).length

/-- Candidate splits for a greedy (.+): nonempty prefixes of the leading
non-newline run paired with the corresponding suffix, longest prefix
first. -/
def grpSplits (s : Str) : List (Str × Str) :=
  (List.range (dotRun s)).map (fun i => (s.take (dotRun s - i), s.drop (dotRun s - i)))

/-- Backtracking matcher in continuation-passing style.  The continuation
receives the unconsumed input and the capture groups collected so far, in
order of appearance. -/
def matchRE : RE → Str → List Str → (Str → List Str → Option (List Str)) → Option (List Str)
  | .eps, s, caps, k => k s caps
  | .ch c, s, caps, k =>
    match s with
    | [] => none
    | c' :: rest => if c' = c then k rest caps else none
  | .cat r1 r2, s, caps, k =>
    matchRE r1 s caps (fun s' caps' => matchRE r2 s' caps' k)
  | .alt r1 r2, s, caps, k =>
    (matchRE r1 s caps k).orElse (fun _ => matchRE r2 s caps k)
  | .opt r, s, caps, k =>
    (matchRE r s caps k).orElse (fun _ => k s caps)
  | .grp, s, caps, k =>
    (grpSplits s).findSome? (fun pq => k pq.2 (caps ++ [pq.1]))

/-- Model of re.search: try each start position from the left and return the
captures of the first successful match. -/
def reSearch (r : RE) : Str → Option (List Str)
  | [] => matchRE r [] [] (fun _ caps => some caps)
  | s@(_ :: t) =>
    (matchRE r s [] (fun _ caps => some caps)).orElse (fun _ => reSearch r t)

/-- A literal string as a regex. -/
def lit (s : String) : RE := s.toList.foldr (fun c r => RE.cat (.ch c) r) .eps

/-- Concatenation of a list of regexes. -/
def cats (l : List RE) : RE := l.foldr RE.cat .eps

/-- The five cacheable question types of MenuCacheService. -/
inductive QuestionType where
  | description | ingredients | allergens | price | preparation
deriving DecidableEq

/-- The string value of each question type, as used in cache keys. -/
def QuestionType.str : QuestionType → String
  | .description => "description"
  | .ingredients => "ingredients"
  | .allergens => "allergens"
  | .price => "price"
  | .preparation => "preparation"

/-- The five question types in the declaration order of the
cacheable_patterns dictionary. -/
def questionTypesOrder : List QuestionType :=
  [.description, .ingredients, .allergens, .price, .preparation]

/-- MenuCacheService.cacheable_patterns: the ordered pattern groups, each
regex transcribed from the Python source. -/
def cacheable_patterns : List (QuestionType × List RE) :=
  [ (.description,
      [ cats [lit "tell me about ", .opt (lit "the "), .grp]
      , cats [lit "what is ", .opt (lit "the "), .grp]
      , cats [lit "describe ", .opt (lit "the "), .grp]
      , cats [.opt (lit "what "), lit "about ", .opt (lit "the "), .grp] ])
  , (.ingredients,
      [ cats [lit "what ", .opt (lit "are "), .opt (lit "the "), lit "ingredients ",
              .opt (lit "in "), .opt (lit "the "), .grp]
      , cats [.opt (lit "what "), .opt (lit "is "), .opt (lit "in "), .opt (lit "the "),
              .grp, lit " ", .opt (lit "made "), .alt (lit "of") (lit "with")]
      , cats [.opt (lit "what "), .opt (lit "are "), .opt (lit "the "), lit "contents ",
              .opt (lit "of "), .opt (lit "the "), .grp] ])
  , (.allergens,
      [ cats [.opt (lit "does "), .opt (lit "the "), .grp, lit " ",
              .alt (lit "contain") (lit "have"), lit " ", .opt (lit "any "), .grp]
      , cats [.opt (lit "is "), .opt (lit "the "), .grp, lit " ",
              .opt (lit "safe "), .opt (lit "for "), .grp]
      , cats [.opt (lit "any "), lit "allergens ", .opt (lit "in "), .opt (lit "the "), .grp] ])
  , (.price,
      [ cats [lit "how much ", .opt (lit "does "), .opt (lit "is "), .opt (lit "the "),
              .grp, lit " ", .opt (lit "cost")]
      , cats [.opt (lit "what "), .opt (lit "is "), .opt (lit "the "), lit "price ",
              .opt (lit "of "), .opt (lit "the "), .grp]
      , cats [.opt (lit "how "), .opt (lit "much "), .opt (lit "for "), .opt (lit "the "), .grp] ])
  , (.preparation,
      [ cats [lit "how long ", .opt (lit "does "), .opt (lit "the "), .grp, lit " take"]
      , cats [.opt (lit "what "), .opt (lit "is "), .opt (lit "the "), lit "preparation time ",
              .opt (lit "for "), .opt (lit "the "), .grp]
      , cats [.opt (lit "how "), .opt (lit "long "), .opt (lit "to "), .opt (lit "make "),
              .opt (lit "the "), .grp] ])
  ]

/-- First-match classification over a prepared subject text: groups in
declared order, regexes inside a group in declared order, candidate item
name is the trimmed first capture group of the first match. -/
def classifyCore (subject : Str) : Option (QuestionType × Str) :=
  cacheable_patterns.findSome? (fun qp =>
    qp.2.findSome? (fun p =>
      (reSearch p subject).bind (fun caps => caps.head?.map (fun g => (qp.1, stripStr g)))))

/-- MenuCacheService._classify_question: classify the lower-cased, stripped
message. -/
def classify_question (message : String) : Option (QuestionType × Str) :=
  classifyCore (stripStr (lowerStr message.toList))

/-- Modelled from the claim wording for comparison: classification matching
against the lower-cased message without stripping surrounding whitespace. -/
def classifySpecWords (message : String) : Option (QuestionType × Str) :=
  classifyCore (lowerStr message.toList)

/-
Menu data model.  MenuItemKnowledge fields used by the deterministic
knowledge cache: an ingredient is a pair of its name and its is_active
flag; preparation_time = 0 and price = 0 model the falsy absent values.
-/

/-- A menu item as read by the cache service. -/
structure MenuItem where
  id : String
  name : String
  description : String
  price : Nat
  is_signature : Bool
  is_available : Bool
  ingredients : List (String × Bool)
  allergen_info : List String
  preparation_time : Nat
deriving DecidableEq

/-- MenuCacheService._normalize_item_name: lower-case, strip, drop every
character that is neither a word character nor whitespace. -/
def normalize_item_name (item_name : Str) : Str :=
  (stripStr (lowerStr item_name)).filter (fun c => isWordChar c || isPySpace c)

/-- MenuCacheService._find_menu_item: first an exact lookup comparing the
lower-cased stored name with the normalized search string, then a scan for
the first available item whose normalized name contains the search string
or is contained in it. -/
def find_menu_item (menu : List MenuItem) (item_name : Str) : Option MenuItem :=
  let ns := normalize_item_name item_name
  match menu.find? (fun it => it.is_available && lowerStr it.name.toList == ns) with
  | some it => some it
  | none =>
    (menu.filter (fun it => it.is_available)).find? (fun it =>
      let ni := normalize_item_name it.name.toList
      isSubstrOf ns ni || isSubstrOf ni ns)

/-- Modelled from the claim wording for comparison: an exact phase that
compares fully normalized names on both sides, then the same containment
scan. -/
def findItemSpecWords (menu : List MenuItem) (item_name : Str) : Option MenuItem :=
  let ns := normalize_item_name item_name
  match (menu.filter (fun it => it.is_available)).find?
      (fun it => normalize_item_name it.name.toList == ns) with
  | some it => some it
  | none =>
    (menu.filter (fun it => it.is_available)).find? (fun it =>
      let ni := normalize_item_name it.name.toList
      isSubstrOf ns ni || isSubstrOf ni ns)

/-- MenuCacheService.instant_responses, in declaration order. -/
def instant_responses : List (String × String) :=
  [ ("hello", "Hello! Welcome to The Cookie Jar! I'm Baker Betty, your cookie expert. What delicious treat can I help you find today?")
  , ("hi", "Hi there! Welcome to The Cookie Jar! What kind of cookie are you craving today?")
  , ("hey", "Hey! Great to see you at The Cookie Jar! What can I get for you today?")
  , ("good morning", "Good morning! Welcome to The Cookie Jar! Nothing beats fresh cookies to start your day. What would you like?")
  , ("good afternoon", "Good afternoon! Welcome to The Cookie Jar! Ready for a sweet treat?")
  , ("good evening", "Good evening! Welcome to The Cookie Jar! How about a delicious cookie to end your day?")
  , ("what do you have", "We have an amazing selection of cookies! Our menu includes Classic Chocolate Chip, Double Chocolate Chip, Oatmeal Raisin, Peanut Butter, Sugar Cookies, and many more specialty options. What type of cookie are you in the mood for?")
  , ("what's popular", "Our most popular cookies are the Classic Chocolate Chip and Double Chocolate Chip! The Chocolate Chip is a timeless favorite with semi-sweet chocolate chips, while the Double Chocolate is perfect for serious chocolate lovers. Would you like to try one of these?")
  , ("what's your best seller", "Our Classic Chocolate Chip Cookie is our all-time best seller! It's made with premium butter, semi-sweet chocolate chips, and baked to perfection. Would you like to try one?")
  , ("do you have chocolate", "Yes! We have several chocolate options: Classic Chocolate Chip, Double Chocolate Chip, Chocolate Peanut Butter Chip, and White Chocolate Macadamia. Which one sounds good to you?")
  , ("thank you", "You're very welcome! Enjoy your delicious cookies! Have a wonderful day!")
  , ("thanks", "My pleasure! Enjoy your treats!")
  , ("bye", "Goodbye! Thanks for visiting The Cookie Jar! Come back soon!")
  , ("goodbye", "Goodbye! It was lovely helping you today. Enjoy your cookies!")
  ]

/-- MenuCacheService._check_instant_response: exact key match on the
lower-cased stripped message first, then the first key, in table order,
contained in the message or containing it. -/
def check_instant_response (message : String) : Option String :=
  let ml := stripStr (lowerStr message.toList)
  match instant_responses.find? (fun kr => kr.1.toList == ml) with
  | some kr => some kr.2
  | none =>
    (instant_responses.find? (fun kr =>
      isSubstrOf kr.1.toList ml || isSubstrOf ml kr.1.toList)).map (fun kr => kr.2)

/-- MenuCacheService._generate_cache_key. -/
def generate_cache_key (restaurant_id : String) (question_type : QuestionType)
    (item_id : String) : String :=
  "restaurant:" ++ restaurant_id ++ ":menu_question:" ++ question_type.str ++ ":" ++ item_id

/-- Two-decimal rendering of a price stored in cents, the model of the
Python format specifier .2f on the stored non-negative prices. -/
def format_price (cents : Nat) : String :=
  toString (cents / 100) ++ "." ++
    (if cents % 100 < 10 then "0" ++ toString (cents % 100) else toString (cents % 100))

/-- MenuCacheService._generate_deterministic_response: the fixed template per
question type, filled from the item record. -/
def generate_deterministic_response (question_type : QuestionType) (item : MenuItem) :
    Option String :=
  match question_type with
  | .description =>
    some ((item.name ++ " - " ++ item.description)
      ++ (if item.price ≠ 0 then " This delicious item is priced at $" ++ format_price item.price ++ "." else "")
      ++ (if item.is_signature then " This is one of our signature items!" else ""))
  | .ingredients =>
    if item.ingredients.isEmpty then
      some ("I don't have the specific ingredient list for " ++ item.name ++ " available right now.")
    else
      let ingredient_names := (item.ingredients.filter (fun p => p.2)).map (fun p => p.1)
      if ingredient_names.isEmpty then
        some ("I don't have the specific ingredient list for " ++ item.name ++ " available right now.")
      else
        some ("The " ++ item.name ++ " contains: " ++ String.intercalate ", " ingredient_names ++ ".")
  | .allergens =>
    if item.allergen_info.isEmpty then
      some ("I don't have specific allergen information for " ++ item.name ++ ". Please let our staff know about any allergies.")
    else
      some ("The " ++ item.name ++ " contains the following allergens: " ++ String.intercalate ", " item.allergen_info ++ ". Please let us know if you have any specific allergies!")
  | .price =>
    if item.price ≠ 0 then
      some ("The " ++ item.name ++ " costs $" ++ format_price item.price ++ ".")
    else
      some ("I don't have the current price for " ++ item.name ++ ". Please check with our staff.")
  | .preparation =>
    if item.preparation_time ≠ 0 then
      some ("The " ++ item.name ++ " takes approximately " ++ toString item.preparation_time ++ " minutes to prepare.")
    else
      some ("I don't have the specific preparation time for " ++ item.name ++ ".")

/-- The Redis key-value state (TTL bookkeeping abstracted). -/
def Store := String → Option String

/-- An empty cache. -/
def emptyStore : Store := fun _ => none

/-- redis setex (the TTL argument is abstracted away). -/
def storeSet (s : Store) (key value : String) : Store :=
  fun k => if k = key then some value else s k

/-- redis delete. -/
def storeDel (s : Store) (key : String) : Store :=
  fun k => if k = key then none else s k

/-- MenuCacheService.get_cached_response: instant responses first, then
classification, item resolution, cache lookup, and generate-and-cache.
Returns the optional response together with the resulting cache state. -/
def get_cached_response (restaurant_id : String) (menu : List MenuItem)
    (store : Store) (message : String) : Option String × Store :=
  match check_instant_response message with
  | some r => (some r, store)
  | none =>
    match classify_question message with
    | none => (none, store)
    | some (question_type, item_name) =>
      match find_menu_item menu item_name with
      | none => (none, store)
      | some item =>
        let cache_key := generate_cache_key restaurant_id question_type item.id
        match store cache_key with
        | some cached => (some cached, store)
        | none =>
          match generate_deterministic_response question_type item with
          | some response => (some response, storeSet store cache_key response)
          | none => (none, store)

/-- MenuCacheService.invalidate_item_cache: delete the cache key of every
question type for the given item. -/
def invalidate_item_cache (restaurant_id : String) (item_id : String) (store : Store) :
    Store :=
  questionTypesOrder.foldl
    (fun s question_type => storeDel s (generate_cache_key restaurant_id question_type item_id))
    store

/-
AIService: the static fallback and the streaming pipeline.
-/

/-- AIService._generate_fallback_response.  The source reads only the avatar
name (avatar_config.get with default Baker Betty); the message, the
restaurant record and the first-interaction flag are accepted and ignored. -/
def generate_fallback_response (_message : String) (_restaurant_name : String)
    (avatar_name : Option String) (_is_first_interaction : Bool) : String :=
  "I'm " ++ avatar_name.getD "Baker Betty" ++
    " and I work here at the bakery. What can I help you with today? I know our menu pretty well!"

/-- Outcome of the provider call: generated text, or the exception rendered
as a string. -/
abbrev ProviderResult := Except String String

/-- The error-handling skeleton of AIService._generate_ai_response: with a
missing or placeholder API key, and on any provider exception, the static
fallback is returned; otherwise the provider text passes through. -/
def generate_ai_response (dev_mode : Bool) (provider : ProviderResult)
    (message restaurant_name : String) (avatar_name : Option String) : String :=
  if dev_mode then generate_fallback_response message restaurant_name avatar_name false
  else
    match provider with
    | .ok text => text
    | .error _ => generate_fallback_response message restaurant_name avatar_name false

/-- One chunk yielded by AIService.process_chat_message_stream, identified by
the shape of the object serialized at the corresponding yield site:
content_only is the cached-branch object carrying only a content field,
done_marker the cached-branch literal DONE line, token an envelope with
type token and a content field, done_msg an envelope with type done and a
message_id field, error_msg an envelope with type error and an error field
holding the exception text. -/
inductive StreamChunk where
  | content_only (content : String)
  | done_marker
  | token (content : String)
  | done_msg (message_id : String)
  | error_msg (error : String)
deriving DecidableEq

/-- AIService.process_chat_message_stream as a function of its branch
inputs: the optional cached response, the development-mode flag on the API
key, the non-empty delta contents received from the provider before the
stream ends or the exception given by provider_error aborts it, and the
identifiers interpolated into the done envelopes. -/
def process_chat_message_stream (cached : Option String) (dev_mode : Bool)
    (provider_chunks : List String) (provider_error : Option String)
    (user_message_id ai_message_id restaurant_name : String) : List StreamChunk :=
  match cached with
  | some c => [.content_only c, .done_marker]
  | none =>
    if dev_mode then
      [.token ("I'd be happy to help you with " ++ restaurant_name ++
        "! What would you like to know about our menu?"),
       .done_msg user_message_id]
    else
      match provider_error with
      | none => provider_chunks.map .token ++ [.done_msg ai_message_id]
      | some e =>
        provider_chunks.map .token ++
          [.token "I'm here to help! What can I tell you about our delicious options?",
           .error_msg e]

/-- A chunk of the claimed token shape. -/
def is_token_chunk : StreamChunk → Bool
  | .token _ => true
  | _ => false

/-- A chunk of one of the claimed terminator shapes (done or error). -/
def is_terminator_chunk : StreamChunk → Bool
  | .done_msg _ => true
  | .error_msg _ => true
  | _ => false

/-- The claimed envelope grammar: zero or more token envelopes terminated by
exactly one done or error envelope. -/
def envelope_grammar : List StreamChunk → Bool
  | [] => false
  | [c] => is_terminator_chunk c
  | c :: rest => is_token_chunk c && envelope_grammar rest

/-
AI configuration management (config/ai_config.py and
DynamicAIService config handling).
-/

/-- AIMode values. -/
inductive AIMode where
  | text_only | speech_enabled | hybrid
deriving DecidableEq

/-- SpeechConfig dataclass. -/
structure SpeechConfig where
  synthesis_enabled : Bool
  recognition_enabled : Bool
  default_voice : String
  voice_selection_enabled : Bool
  auto_play : Bool
deriving DecidableEq

/-- ModelConfig dataclass; the model identifier is kept as its string value,
the float temperature is modelled as a rational. -/
structure ModelConfig where
  model : String
  max_tokens : Int
  temperature : Rat
  system_prompt_override : Option String
  context_messages : Int
deriving DecidableEq

/-- PerformanceConfig dataclass. -/
structure PerformanceConfig where
  streaming_enabled : Bool
  cache_responses : Bool
  max_daily_requests : Int
  max_daily_cost_usd : Rat
  rate_limit_per_minute : Int
deriving DecidableEq

/-- RestaurantAIConfig dataclass (custom_features, unused by the claims, is
omitted). -/
structure RestaurantAIConfig where
  mode : AIMode
  speech : SpeechConfig
  model : ModelConfig
  performance : PerformanceConfig
deriving DecidableEq

/-- AIConfigManager.get_default_config. -/
def get_default_config : RestaurantAIConfig :=
  { mode := .text_only
  , speech :=
    { synthesis_enabled := false, recognition_enabled := false, default_voice := "nova"
    , voice_selection_enabled := false, auto_play := false }
  , model :=
    { model := "gpt-4o-mini", max_tokens := 150, temperature := 0.7
    , system_prompt_override := none, context_messages := 10 }
  , performance :=
    { streaming_enabled := true, cache_responses := true, max_daily_requests := 1000
    , max_daily_cost_usd := 10, rate_limit_per_minute := 60 } }

/-- AIConfigManager.get_speech_enabled_config. -/
def get_speech_enabled_config : RestaurantAIConfig :=
  let c := get_default_config
  { c with
    mode := .speech_enabled
  , speech :=
    { c.speech with
      synthesis_enabled := true, recognition_enabled := true
    , voice_selection_enabled := true, auto_play := true } }

/-- AIConfigManager.get_hybrid_config. -/
def get_hybrid_config : RestaurantAIConfig :=
  { get_speech_enabled_config with mode := .hybrid }

/-- AIConfigManager.validate_config: the checks in source order, returning
the validity flag and the error message. -/
def validate_config (config : RestaurantAIConfig) : Bool × String :=
  if config.model.max_tokens < 10 ∨ config.model.max_tokens > 4000 then
    (false, "max_tokens must be between 10 and 4000")
  else if config.model.temperature < 0 ∨ config.model.temperature > 2 then
    (false, "temperature must be between 0 and 2")
  else if config.model.context_messages < 1 ∨ config.model.context_messages > 50 then
    (false, "context_messages must be between 1 and 50")
  else if config.performance.max_daily_cost_usd < 0 then
    (false, "max_daily_cost_usd must be positive")
  else if config.performance.max_daily_requests < 1 then
    (false, "max_daily_requests must be at least 1")
  else if config.performance.rate_limit_per_minute < 1 then
    (false, "rate_limit_per_minute must be at least 1")
  else (true, "")

/-- The Redis state holding per-restaurant configurations; the JSON round
trip through to_json and from_json is abstracted to the identity. -/
def ConfigStore := String → Option RestaurantAIConfig

/-- Caching a configuration under a key (redis setex, TTL abstracted). -/
def configStoreSet (s : ConfigStore) (key : String) (c : RestaurantAIConfig) : ConfigStore :=
  fun k => if k = key then some c else s k

/-- DynamicAIService.update_restaurant_config: validate, and only on success
cache the configuration; on a validation failure report False and leave
the store untouched. -/
def update_restaurant_config (store : ConfigStore) (restaurant_id : String)
    (config : RestaurantAIConfig) : ConfigStore × Bool :=
  if (validate_config config).1 then
    (configStoreSet store ("ai_config:" ++ restaurant_id) config, true)
  else (store, false)

/-- DynamicAIService.get_restaurant_config: return the cached configuration
when present, otherwise the default (TEXT_ONLY_MODE) or hybrid
configuration; no validation happens on this path. -/
def get_restaurant_config (store : ConfigStore) (restaurant_id : String)
    (text_only_mode : Bool) : RestaurantAIConfig :=
  match store ("ai_config:" ++ restaurant_id) with
  | some c => c
  | none => if text_only_mode then get_default_config else get_hybrid_config

/-
Semantic response cache key (DynamicAIService._get_cached_response and
_cache_response).
-/

/-- Modelled from the CPython runtime the repository code calls into: the
builtin hash of a str is salted by a per-process seed (PYTHONHASHSEED).
Only the seed dependence matters to the claim; the mixing below is a
simple stand-in for the salted siphash of CPython. -/
def py_str_hash (process_seed : Nat) (s : Str) : Nat :=
  s.foldl (fun h c => h * 1000003 + c.toNat) process_seed

/-- The semantic cache key: the literal response_cache, the restaurant id
and the builtin hash of the lower-cased message, joined by colons. -/
def response_cache_key (process_seed : Nat) (restaurant_id : String) (message : String) :
    String :=
  "response_cache:" ++ restaurant_id ++ ":" ++
    toString (py_str_hash process_seed (lowerStr message.toList))

/-
Concrete menu fixtures used by the claims.
-/

/-- The Boneless cookie of Example 1: available, price 3.99, signature flag
unset, with the description stated by the claim. -/
def boneless_item : MenuItem :=
  { id := "boneless-1"
  , name := "Boneless"
  , description := "Our original signature warm gourmet cookie with a perfectly balanced buttery flavor"
  , price := 399
  , is_signature := false
  , is_available := true
  , ingredients := []
  , allergen_info := []
  , preparation_time := 0 }

/-- The OG cookie of Example 2: available, price 4.49. -/
def og_item : MenuItem :=
  { id := "og-1"
  , name := "OG"
  , description := "Our classic cookie"
  , price := 449
  , is_signature := false
  , is_available := true
  , ingredients := []
  , allergen_info := []
  , preparation_time := 0 }

def item_progressive : MenuItem :=
  { id := "prog-1", name := "Progressive", description := "a cookie", price := 500
  , is_signature := false, is_available := true
  , ingredients := [], allergen_info := [], preparation_time := 0 }

def item_og_dotted : MenuItem :=
  { id := "ogd-1", name := "O.G.", description := "the original", price := 449
  , is_signature := false, is_available := true
  , ingredients := [], allergen_info := [], preparation_time := 0 }

def findItemAmended (menu : List MenuItem) (item_name : Str) : Option MenuItem :=
  let ns := normalize_item_name item_name
  match (menu.filter (fun it => it.is_available)).find?
      (fun it => lowerStr it.name.toList == ns) with
  | some it => some it
  | none =>
    (menu.filter (fun it => it.is_available)).find? (fun it =>
      let ni := normalize_item_name it.name.toList
      isSubstrOf ns ni || isSubstrOf ni ns)

def boundary_min_config : RestaurantAIConfig :=
  { get_default_config with
    model := { get_default_config.model with
      max_tokens := 10, temperature := 0, context_messages := 1 } }

def boundary_max_config : RestaurantAIConfig :=
  { get_default_config with
    model := { get_default_config.model with
      max_tokens := 4000, temperature := 2, context_messages := 50 } }

def out_of_range_config : RestaurantAIConfig :=
  { get_default_config with
    model := { get_default_config.model with max_tokens := 9 } }

/-
Helper lemmas.
-/

/-- Two strings with the same character data are equal. -/
theorem data_inj {s t : String} (h : s.data = t.data) : s = t := by
  cases s; cases t; exact congrArg String.mk h

/-- A list is a prefix of itself followed by anything. -/
theorem isPrefixOf_append_self (a b : Str) : a.isPrefixOf (a ++ b) = true := by
  rw [List.isPrefixOf_iff_prefix]; exact List.prefix_append a b

/-- Python containment holds for any framed occurrence. -/
theorem isSubstrOf_append (a p s : Str) : isSubstrOf a (p ++ (a ++ s)) = true := by
  induction p with
  | nil =>
    cases a with
    | nil => cases s <;> simp [isSubstrOf]
    | cons c t => simp [isSubstrOf, isPrefixOf_append_self]
  | cons c p ih => simp [isSubstrOf, ih]

/-- find? only looks at the predicate values on the list. -/
theorem find?_congrOn {α : Type} (l : List α) (p q : α → Bool)
    (h : ∀ x ∈ l, p x = q x) : l.find? p = l.find? q := by
  induction l with
  | nil => rfl
  | cons x t ih =>
    have hx := h x (by simp)
    cases hpx : p x <;>
      simp [List.find?, hpx, ← hx, ih (fun y hy => h y (by simp [hy]))]

/-- Searching a filtered list is searching with the conjoined predicate. -/
theorem filter_find? {α : Type} (l : List α) (p q : α → Bool) :
    (l.filter p).find? q = l.find? (fun x => p x && q x) := by
  induction l with
  | nil => rfl
  | cons x t ih =>
    cases hpx : p x <;> cases hqx : q x <;>
      simp [List.filter_cons, List.find?, hpx, hqx, ih]

/-- Splitting at the first colon is unambiguous for colon-free heads. -/
theorem colon_split (a : Str) (t1 : Str) (b : Str) (t2 : Str)
    (ha : ':' ∉ a) (hb : ':' ∉ b)
    (h : a ++ ':' :: t1 = b ++ ':' :: t2) : a = b ∧ t1 = t2 := by
  induction a generalizing b with
  | nil =>
    cases b with
    | nil => simpa using h
    | cons d b' =>
      simp only [List.nil_append, List.cons_append, List.cons.injEq] at h
      exact absurd (h.1 ▸ List.mem_cons_self d b') hb
  | cons c a' ih =>
    cases b with
    | nil =>
      simp only [List.nil_append, List.cons_append, List.cons.injEq] at h
      exact absurd (h.1 ▸ List.mem_cons_self c a') ha
    | cons d b' =>
      simp only [List.cons_append, List.cons.injEq] at h
      have ha' : ':' ∉ a' := fun hm => ha (List.mem_cons_of_mem c hm)
      have hb' : ':' ∉ b' := fun hm => hb (List.mem_cons_of_mem d hm)
      obtain ⟨h1, h2⟩ := ih b' ha' hb' h.2
      exact ⟨by rw [h.1, h1], h2⟩

/-- The question-type strings contain no colon. -/
theorem qt_str_colon_free (q : QuestionType) : ':' ∉ q.str.data := by
  cases q <;> decide

/-- The question-type strings are distinct. -/
theorem qt_str_inj {q1 q2 : QuestionType} (h : q1.str = q2.str) : q1 = q2 := by
  cases q1 <;> cases q2 <;> first | rfl | (exact absurd h (by decide))

/-- The character data of a deterministic cache key, in colon-split form. -/
theorem cache_key_data (r : String) (q : QuestionType) (i : String) :
    (generate_cache_key r q i).data =
      "restaurant:".data ++ (r.data ++ ':' :: ("menu_question:".data ++ (q.str.data ++ ':' :: i.data))) := by
  simp [generate_cache_key, String.data_append]

/-- Cache keys of colon-free restaurant and item identifiers are injective in
the identifying triple. -/
theorem cache_key_inj {r1 r2 i1 i2 : String} {q1 q2 : QuestionType}
    (hr1 : ':' ∉ r1.data) (hr2 : ':' ∉ r2.data)
    (h : generate_cache_key r1 q1 i1 = generate_cache_key r2 q2 i2) :
    r1 = r2 ∧ q1 = q2 ∧ i1 = i2 := by
  have hd := congrArg String.data h
  rw [cache_key_data, cache_key_data] at hd
  have h1 := List.append_cancel_left hd
  obtain ⟨hr, hrest⟩ := colon_split _ _ _ _ hr1 hr2 h1
  have h2 := List.append_cancel_left hrest
  obtain ⟨hq, hi⟩ := colon_split _ _ _ _ (qt_str_colon_free q1) (qt_str_colon_free q2) h2
  exact ⟨data_inj hr, qt_str_inj (data_inj hq), data_inj hi⟩

/-- C3, failing-input evaluation: on the query of Example 2 the classifier
does not produce a price question at all.  The second allergens pattern,
whose subexpressions are all optional, matches any message containing a
space, and the allergens group precedes the price group; the candidate
item name it extracts resolves to no menu item, so the cached-response
lookup returns none and never reaches the price template, which would have
produced exactly the string the claim expects. -/
theorem C3_code_evaluation :
    classify_question "how much is the OG" =
      some (QuestionType.allergens, "how much is the".toList) ∧
    (get_cached_response "r1" [og_item] emptyStore "how much is the OG").1 = none ∧
    generate_deterministic_response QuestionType.price og_item = some "The OG costs $4.49." := by
  refine ⟨by decide, by decide, by decide⟩

/-- C7, failing-input evaluation: the semantic response cache key is built
from the salted builtin string hash, so the key of one and the same
message differs between two processes with different hash seeds. -/
theorem C7_code_evaluation :
    response_cache_key 0 "rest-1" "hello" ≠ response_cache_key 1 "rest-1" "hello" := by
  decide

/-- C2, counterexample: with exactly the item data stated by the claim the
pipeline answers without a period between the description and the price
sentence, because the description template concatenates the stored
description and the price sentence with a single space; the claimed output
string is therefore not returned. -/
theorem C2_counterexample :
    (get_cached_response "r1" [boneless_item] emptyStore "What is the Boneless?").1 =
      some "Boneless - Our original signature warm gourmet cookie with a perfectly balanced buttery flavor This delicious item is priced at $3.99." ∧
    (get_cached_response "r1" [boneless_item] emptyStore "What is the Boneless?").1 ≠
      some "Boneless - Our original signature warm gourmet cookie with a perfectly balanced buttery flavor. This delicious item is priced at $3.99." := by
  refine ⟨by decide, by decide⟩

/-- C2, amended: the query of Example 1 is classified as a description
question with candidate boneless?, resolves to the Boneless item, and the
pipeline returns the template output, which joins the description and the
price sentence with a space (no period is inserted after the stored
description). -/
theorem C2_amended_boneless_description :
    classify_question "What is the Boneless?" =
      some (QuestionType.description, "boneless?".toList) ∧
    find_menu_item [boneless_item] "boneless?".toList = some boneless_item ∧
    (get_cached_response "r1" [boneless_item] emptyStore "What is the Boneless?").1 =
      some "Boneless - Our original signature warm gourmet cookie with a perfectly balanced buttery flavor This delicious item is priced at $3.99." := by
  refine ⟨by decide, by decide, by decide⟩

/-- C1, counterexample: on a provider failure the non-streaming fallback
names the avatar but never the restaurant (the template says the bakery
instead of the restaurant name), and the streaming error branch delivers
the raw exception text to the caller inside the error envelope. -/
theorem C1_counterexample :
    generate_ai_response false (Except.error "ProviderTimeout: request timed out")
        "hi" "The Cookie Jar" (some "Baker Betty") =
      "I'm Baker Betty and I work here at the bakery. What can I help you with today? I know our menu pretty well!" ∧
    isSubstrOf "The Cookie Jar".toList
      (generate_ai_response false (Except.error "ProviderTimeout: request timed out")
        "hi" "The Cookie Jar" (some "Baker Betty")).toList = false ∧
    process_chat_message_stream none false [] (some "ProviderTimeout: request timed out")
        "u1" "a1" "The Cookie Jar" =
      [StreamChunk.token "I'm here to help! What can I tell you about our delicious options?",
       StreamChunk.error_msg "ProviderTimeout: request timed out"] := by
  refine ⟨by decide, by decide, by decide⟩

/-- C1, amended: every provider failure on the non-streaming path yields the
static fallback, which always contains the configured avatar name
(defaulting to Baker Betty) but not the restaurant name; on the streaming
path a provider failure yields a fixed token not derived from the failure,
followed by an error envelope that carries the raw exception text. -/
theorem C1_amended_fallback :
    (∀ (e msg rname : String) (avatar : Option String),
      generate_ai_response false (Except.error e) msg rname avatar =
        generate_fallback_response msg rname avatar false) ∧
    (∀ (e msg rname : String) (avatar : Option String),
      isSubstrOf (avatar.getD "Baker Betty").toList
        (generate_ai_response false (Except.error e) msg rname avatar).toList = true) ∧
    (∀ (e u a rname : String) (chunks : List String),
      process_chat_message_stream none false chunks (some e) u a rname =
        chunks.map StreamChunk.token ++
          [StreamChunk.token "I'm here to help! What can I tell you about our delicious options?",
           StreamChunk.error_msg e]) := by
  refine ⟨fun e msg rname avatar => rfl, fun e msg rname avatar => ?_, fun e u a rname chunks => rfl⟩
  show isSubstrOf (avatar.getD "Baker Betty").toList
    (("I'm " ++ avatar.getD "Baker Betty" ++
      " and I work here at the bakery. What can I help you with today? I know our menu pretty well!").toList) = true
  have hdata : ("I'm " ++ avatar.getD "Baker Betty" ++
      " and I work here at the bakery. What can I help you with today? I know our menu pretty well!").data =
      "I'm ".data ++ ((avatar.getD "Baker Betty").data ++
        " and I work here at the bakery. What can I help you with today? I know our menu pretty well!".data) := by
    simp [String.data_append]
  show isSubstrOf (avatar.getD "Baker Betty").data
    (("I'm " ++ avatar.getD "Baker Betty" ++
      " and I work here at the bakery. What can I help you with today? I know our menu pretty well!").data) = true
  rw [hdata]
  exact isSubstrOf_append _ _ _

/-- Prepending a token envelope to a nonempty stream tail does not change
grammar conformance. -/
theorem envelope_grammar_token_cons (c : String) (l : List StreamChunk) (hl : l ≠ []) :
    envelope_grammar (StreamChunk.token c :: l) = envelope_grammar l := by
  cases l with
  | nil => exact absurd rfl hl
  | cons x t => simp [envelope_grammar, is_token_chunk]

/-- Token envelopes followed by a terminator envelope satisfy the claimed
grammar. -/
theorem envelope_grammar_tokens_terminator (toks : List String) (t : StreamChunk)
    (ht : is_terminator_chunk t = true) :
    envelope_grammar (toks.map StreamChunk.token ++ [t]) = true := by
  induction toks with
  | nil => simpa [envelope_grammar] using ht
  | cons x rest ih =>
    rw [List.map_cons, List.cons_append,
      envelope_grammar_token_cons _ _ (by simp), ih]

/-- C6, counterexample: the cached-hit branch of the streaming endpoint does
not emit the claimed envelopes at all; it yields an object with only a
content field followed by the literal DONE marker, so its body violates
the token-then-terminator grammar. -/
theorem C6_counterexample :
    process_chat_message_stream (some "Hello there!") false [] none "u1" "a1" "R" =
      [StreamChunk.content_only "Hello there!", StreamChunk.done_marker] ∧
    envelope_grammar
      (process_chat_message_stream (some "Hello there!") false [] none "u1" "a1" "R") = false := by
  refine ⟨rfl, by decide⟩

/-- C6, amended: on the generated-stream, development-fallback and provider
error branches the body is a sequence of token envelopes terminated by
exactly one done envelope or by one error envelope (whose payload sits
under an error field); the cached branch instead yields an object carrying
only a content field followed by the literal DONE marker. -/
theorem C6_amended_stream_grammar :
    (∀ (dev_mode : Bool) (chunks : List String) (err : Option String) (u a r : String),
      envelope_grammar (process_chat_message_stream none dev_mode chunks err u a r) = true) ∧
    (∀ (c : String) (dev_mode : Bool) (chunks : List String) (err : Option String) (u a r : String),
      process_chat_message_stream (some c) dev_mode chunks err u a r =
        [StreamChunk.content_only c, StreamChunk.done_marker]) ∧
    (∀ (e u a r : String) (chunks : List String),
      process_chat_message_stream none false chunks (some e) u a r =
        chunks.map StreamChunk.token ++
          [StreamChunk.token "I'm here to help! What can I tell you about our delicious options?",
           StreamChunk.error_msg e]) := by
  refine ⟨?_, fun c dev_mode chunks err u a r => rfl, fun e u a r chunks => rfl⟩
  intro dev_mode chunks err u a r
  cases dev_mode with
  | true =>
    simp [process_chat_message_stream, envelope_grammar, is_token_chunk, is_terminator_chunk]
  | false =>
    cases err with
    | none =>
      exact envelope_grammar_tokens_terminator chunks (.done_msg a) rfl
    | some e =>
      show envelope_grammar (chunks.map StreamChunk.token ++
        [StreamChunk.token "I'm here to help! What can I tell you about our delicious options?",
         StreamChunk.error_msg e]) = true
      have : ([StreamChunk.token "I'm here to help! What can I tell you about our delicious options?",
          StreamChunk.error_msg e] : List StreamChunk) =
          (["I'm here to help! What can I tell you about our delicious options?"].map StreamChunk.token) ++
            [StreamChunk.error_msg e] := rfl
      rw [this, ← List.append_assoc, ← List.map_append]
      exact envelope_grammar_tokens_terminator _ (.error_msg e) rfl

/-- C4, counterexample: on a message of two spaces the first regex that
matches the lower-cased message is the third price pattern (its trimmed
capture is empty), yet the classifier returns none, because the source
strips the message before matching and no pattern matches the empty
string; matching on the lower-cased message alone therefore does not
describe the code. -/
theorem C4_counterexample :
    classifySpecWords "  " = some (QuestionType.price, ([] : Str)) ∧
    classify_question "  " = none := by
  refine ⟨by decide, by decide⟩

/-- C4, amended: classification works on the lower-cased and
whitespace-stripped message: the pattern groups are evaluated in the fixed
priority order with the regexes of a group in declared order, the first
match determines the question type with the trimmed first capture group as
candidate item name, no match at all yields none, and classification is
invariant under letter case of the input. -/
theorem C4_amended_classification :
    (∀ message : String,
      classify_question message = classifyCore (stripStr (lowerStr message.toList))) ∧
    (∀ m1 m2 : String, lowerStr m1.toList = lowerStr m2.toList →
      classify_question m1 = classify_question m2) ∧
    (∀ subject : Str,
      (∀ qp ∈ cacheable_patterns, ∀ p ∈ qp.2, reSearch p subject = none) →
      classifyCore subject = none) := by
  refine ⟨fun message => rfl, fun m1 m2 h => ?_, fun subject h => ?_⟩
  · unfold classify_question
    rw [h]
  · unfold classifyCore
    refine List.findSome?_eq_none_iff.mpr (fun qp hqp => ?_)
    refine List.findSome?_eq_none_iff.mpr (fun p hp => ?_)
    rw [h qp hqp p hp]
    rfl

/-- C4, witness for the amended classification theorem. -/
theorem C4_amended_classification_witness :
    lowerStr "Tell me about THE OG".toList = lowerStr "tell me about the og".toList ∧
    classify_question "Tell me about THE OG" = classify_question "tell me about the og" ∧
    (∀ qp ∈ cacheable_patterns, ∀ p ∈ qp.2, reSearch p ([] : Str) = none) ∧
    classifyCore ([] : Str) = none := by
  refine ⟨by decide, C4_amended_classification.2.1 "Tell me about THE OG" "tell me about the og" (by decide),
    by decide, C4_amended_classification.2.2 [] (by decide)⟩

/-- C5, counterexample: with the menu Progressive, O.G. and the candidate og
there is an available item whose normalized name equals the normalized
candidate, yet resolution returns a different item: the exact phase
compares the merely lower-cased stored name (o.g.) with the normalized
candidate (og), misses, and the containment scan then hits Progressive
first, og being a substring of progressive. -/
theorem C5_counterexample :
    normalize_item_name item_og_dotted.name.toList = normalize_item_name "og".toList ∧
    item_og_dotted ∈ [item_progressive, item_og_dotted] ∧
    item_og_dotted.is_available = true ∧
    find_menu_item [item_progressive, item_og_dotted] "og".toList = some item_progressive ∧
    findItemSpecWords [item_progressive, item_og_dotted] "og".toList = some item_og_dotted ∧
    item_progressive ≠ item_og_dotted := by
  refine ⟨by decide, by decide, by decide, by decide, by decide, by decide⟩

/-- C5, amended: resolution returns the first available item, in menu order,
whose lower-cased (not punctuation-stripped) name equals the normalized
candidate; otherwise the first available item whose normalized name is a
substring of the normalized candidate or vice versa; otherwise none.
Whenever every available item name is already punctuation-free, this
coincides with the resolution order stated by the claim. -/
theorem C5_amended_resolution :
    (∀ (menu : List MenuItem) (item_name : Str),
      find_menu_item menu item_name = findItemAmended menu item_name) ∧
    (∀ (menu : List MenuItem) (item_name : Str),
      (∀ it ∈ menu, it.is_available = true →
        lowerStr it.name.toList = normalize_item_name it.name.toList) →
      find_menu_item menu item_name = findItemSpecWords menu item_name) := by
  constructor
  · intro menu item_name
    simp only [find_menu_item, findItemAmended, filter_find?]
  · intro menu item_name h
    simp only [find_menu_item, findItemSpecWords, filter_find?]
    have hcong :
        menu.find? (fun it => it.is_available && (lowerStr it.name.toList == normalize_item_name item_name)) =
        menu.find? (fun it => it.is_available && (normalize_item_name it.name.toList == normalize_item_name item_name)) := by
      refine find?_congrOn menu _ _ (fun it hit => ?_)
      cases hav : it.is_available with
      | false => simp
      | true =>
        have heq : lowerStr it.name.data = normalize_item_name it.name.data := h it hit hav
        simp [heq]
    rw [hcong]

/-- C5, witness for the amended resolution theorem. -/
theorem C5_amended_resolution_witness :
    find_menu_item [og_item] "the og".toList = findItemAmended [og_item] "the og".toList ∧
    (∀ it ∈ [og_item], it.is_available = true →
      lowerStr it.name.toList = normalize_item_name it.name.toList) ∧
    find_menu_item [og_item] "the og".toList = findItemSpecWords [og_item] "the og".toList := by
  refine ⟨C5_amended_resolution.1 [og_item] "the og".toList, by decide,
    C5_amended_resolution.2 [og_item] "the og".toList (by decide)⟩

/-- C8: invalidating an item removes the cached deterministic answer of that
item for all five question types, and, for colon-free identifiers (the
services pass UUID strings), every entry keyed by a different
restaurant-item pair is untouched for every question type. -/
theorem C8_invalidation_frame :
    ∀ (store : Store) (rid item_id : String),
      (∀ qt : QuestionType,
        invalidate_item_cache rid item_id store (generate_cache_key rid qt item_id) = none) ∧
      (∀ (rid2 item_id2 : String) (qt2 : QuestionType),
        ':' ∉ rid.data → ':' ∉ item_id.data → ':' ∉ rid2.data → ':' ∉ item_id2.data →
        (rid2 ≠ rid ∨ item_id2 ≠ item_id) →
        invalidate_item_cache rid item_id store (generate_cache_key rid2 qt2 item_id2) =
          store (generate_cache_key rid2 qt2 item_id2)) := by
  intro store rid item_id
  constructor
  · intro qt
    cases qt <;>
      simp [invalidate_item_cache, questionTypesOrder, storeDel]
  · intro rid2 item_id2 qt2 h1 h2 h3 h4 hne
    have hkey : ∀ qt : QuestionType,
        generate_cache_key rid2 qt2 item_id2 ≠ generate_cache_key rid qt item_id := by
      intro qt heq
      obtain ⟨hr, _, hi⟩ := cache_key_inj h3 h1 heq
      rcases hne with hne | hne
      · exact hne hr
      · exact hne hi
    simp [invalidate_item_cache, questionTypesOrder, storeDel,
      hkey QuestionType.description, hkey QuestionType.ingredients,
      hkey QuestionType.allergens, hkey QuestionType.price, hkey QuestionType.preparation]

/-- C8, witness for the invalidation theorem. -/
theorem C8_invalidation_frame_witness :
    invalidate_item_cache "r1" "i1"
        (storeSet emptyStore (generate_cache_key "r2" QuestionType.price "i2") "The OG costs $4.49.")
        (generate_cache_key "r1" QuestionType.price "i1") = none ∧
    (':' ∉ ("r1" : String).data ∧ ':' ∉ ("i1" : String).data ∧
     ':' ∉ ("r2" : String).data ∧ ':' ∉ ("i2" : String).data ∧
     (("r2" : String) ≠ "r1" ∨ ("i2" : String) ≠ "i1")) ∧
    invalidate_item_cache "r1" "i1"
        (storeSet emptyStore (generate_cache_key "r2" QuestionType.price "i2") "The OG costs $4.49.")
        (generate_cache_key "r2" QuestionType.price "i2") =
      (storeSet emptyStore (generate_cache_key "r2" QuestionType.price "i2") "The OG costs $4.49.")
        (generate_cache_key "r2" QuestionType.price "i2") := by
  refine ⟨(C8_invalidation_frame _ "r1" "i1").1 QuestionType.price,
    ⟨by decide, by decide, by decide, by decide, Or.inl (by decide)⟩,
    (C8_invalidation_frame _ "r1" "i1").2 "r2" "i2" QuestionType.price
      (by decide) (by decide) (by decide) (by decide) (Or.inl (by decide))⟩

/-- A configuration that passes validation satisfies the three documented
ranges. -/
theorem validate_config_ranges (config : RestaurantAIConfig)
    (hv : (validate_config config).1 = true) :
    10 ≤ config.model.max_tokens ∧ config.model.max_tokens ≤ 4000 ∧
    0 ≤ config.model.temperature ∧ config.model.temperature ≤ 2 ∧
    1 ≤ config.model.context_messages ∧ config.model.context_messages ≤ 50 := by
  unfold validate_config at hv
  split_ifs at hv with h1 h2 h3 h4 h5 h6
  all_goals try simp at hv
  push_neg at h1 h2 h3
  exact ⟨h1.1, h1.2, h2.1, h2.2, h3.1, h3.2⟩

/-- A configuration outside one of the three documented ranges fails
validation. -/
theorem validate_config_ranges_false (config : RestaurantAIConfig)
    (h : ¬ (10 ≤ config.model.max_tokens ∧ config.model.max_tokens ≤ 4000 ∧
            0 ≤ config.model.temperature ∧ config.model.temperature ≤ 2 ∧
            1 ≤ config.model.context_messages ∧ config.model.context_messages ≤ 50)) :
    (validate_config config).1 = false := by
  unfold validate_config
  split_ifs with h1 h2 h3 h4 h5 h6 <;> try rfl
  push_neg at h1 h2 h3
  exact absurd ⟨h1.1, h1.2, h2.1, h2.2, h3.1, h3.2⟩ h

/-- C9: a successful configuration update implies the three documented
ranges; a configuration violating any of them is rejected with nothing
persisted; the boundary values themselves are accepted (with the default
performance settings); and the configuration lookup used during message
generation returns whatever is cached without ever re-validating. -/
theorem C9_config_validation :
    (∀ (store : ConfigStore) (rid : String) (config : RestaurantAIConfig)
        (store2 : ConfigStore),
      update_restaurant_config store rid config = (store2, true) →
      10 ≤ config.model.max_tokens ∧ config.model.max_tokens ≤ 4000 ∧
      0 ≤ config.model.temperature ∧ config.model.temperature ≤ 2 ∧
      1 ≤ config.model.context_messages ∧ config.model.context_messages ≤ 50) ∧
    (∀ (store : ConfigStore) (rid : String) (config : RestaurantAIConfig),
      ¬ (10 ≤ config.model.max_tokens ∧ config.model.max_tokens ≤ 4000 ∧
         0 ≤ config.model.temperature ∧ config.model.temperature ≤ 2 ∧
         1 ≤ config.model.context_messages ∧ config.model.context_messages ≤ 50) →
      update_restaurant_config store rid config = (store, false)) ∧
    (∀ (store : ConfigStore) (rid : String),
      (update_restaurant_config store rid boundary_min_config).2 = true ∧
      (update_restaurant_config store rid boundary_max_config).2 = true) ∧
    (∀ (store : ConfigStore) (rid : String) (config : RestaurantAIConfig)
        (text_only_mode : Bool),
      get_restaurant_config (configStoreSet store ("ai_config:" ++ rid) config)
        rid text_only_mode = config) := by
  refine ⟨?_, ?_, ?_, ?_⟩
  · intro store rid config store2 h
    by_cases hv : (validate_config config).1 = true
    · exact validate_config_ranges config hv
    · exfalso
      simp [update_restaurant_config, hv] at h
  · intro store rid config h
    have hv := validate_config_ranges_false config h
    simp [update_restaurant_config, hv]
  · intro store rid
    refine ⟨?_, ?_⟩
    · simp [update_restaurant_config,
        show (validate_config boundary_min_config).1 = true from by decide]
    · simp [update_restaurant_config,
        show (validate_config boundary_max_config).1 = true from by decide]
  · intro store rid config text_only_mode
    simp [get_restaurant_config, configStoreSet]

/-- C9, witness for the configuration validation theorem. -/
theorem C9_config_validation_witness :
    (update_restaurant_config (fun _ => none) "r1" get_default_config =
        (configStoreSet (fun _ => none) "ai_config:r1" get_default_config, true) →
      10 ≤ get_default_config.model.max_tokens ∧
      get_default_config.model.max_tokens ≤ 4000 ∧
      0 ≤ get_default_config.model.temperature ∧
      get_default_config.model.temperature ≤ 2 ∧
      1 ≤ get_default_config.model.context_messages ∧
      get_default_config.model.context_messages ≤ 50) ∧
    ¬ (10 ≤ out_of_range_config.model.max_tokens ∧
       out_of_range_config.model.max_tokens ≤ 4000 ∧
       0 ≤ out_of_range_config.model.temperature ∧
       out_of_range_config.model.temperature ≤ 2 ∧
       1 ≤ out_of_range_config.model.context_messages ∧
       out_of_range_config.model.context_messages ≤ 50) ∧
    update_restaurant_config (fun _ => none) "r1" out_of_range_config =
      ((fun _ => none), false) := by
  refine ⟨C9_config_validation.1 (fun _ => none) "r1" get_default_config
      (configStoreSet (fun _ => none) "ai_config:r1" get_default_config),
    ?_, C9_config_validation.2.1 (fun _ => none) "r1" out_of_range_config ?_⟩
  · decide
  · decide

/-- C10, counterexample: the exact-key fast path takes priority over table
order, so the message goodbye receives the goodbye response although the
first table key contained in the message is bye with a different response;
and the canned responses do not all name the restaurant brand or the
avatar, as the thanks response names neither. -/
theorem C10_counterexample :
    check_instant_response "goodbye" =
      some "Goodbye! It was lovely helping you today. Enjoy your cookies!" ∧
    instant_responses.find? (fun kr =>
        isSubstrOf kr.1.toList "goodbye".toList || isSubstrOf "goodbye".toList kr.1.toList) =
      some ("bye", "Goodbye! Thanks for visiting The Cookie Jar! Come back soon!") ∧
    ("Goodbye! It was lovely helping you today. Enjoy your cookies!" : String) ≠
      "Goodbye! Thanks for visiting The Cookie Jar! Come back soon!" ∧
    check_instant_response "thanks" = some "My pleasure! Enjoy your treats!" ∧
    isSubstrOf "The Cookie Jar".toList "My pleasure! Enjoy your treats!".toList = false ∧
    isSubstrOf "Baker Betty".toList "My pleasure! Enjoy your treats!".toList = false := by
  refine ⟨by decide, by decide, by decide, by decide, by decide, by decide⟩

/-- C10, amended: whenever the instant table matches, the cached-response
lookup returns that canned response before any classification or menu
lookup, with the cache state untouched, and the outcome is independent of
the restaurant id and of the menu; an exact key match takes priority, and
only otherwise does the first key in table order contained in the message
or containing it decide; the canned responses are fixed strings that
ignore the restaurant, several of them hard-coding the The Cookie Jar
branding and the hello response naming Baker Betty. -/
theorem C10_amended_instant_priority :
    (∀ (message : String) (rid rid2 : String) (menu menu2 : List MenuItem) (store : Store),
      (check_instant_response message).isSome = true →
      get_cached_response rid menu store message = (check_instant_response message, store) ∧
      get_cached_response rid menu store message = get_cached_response rid2 menu2 store message) ∧
    (∀ message : String,
      instant_responses.find? (fun kr => kr.1.toList == stripStr (lowerStr message.toList)) = none →
      check_instant_response message =
        (instant_responses.find? (fun kr =>
          isSubstrOf kr.1.toList (stripStr (lowerStr message.toList)) ||
          isSubstrOf (stripStr (lowerStr message.toList)) kr.1.toList)).map (fun kr => kr.2)) := by
  constructor
  · intro message rid rid2 menu menu2 store h
    rcases hc : check_instant_response message with _ | r
    · rw [hc] at h
      exact absurd h (by simp)
    · constructor
      · unfold get_cached_response
        rw [hc]
      · unfold get_cached_response
        rw [hc]
  · intro message h
    simp only [check_instant_response]
    rw [h]

/-- C10, witness for the amended instant-priority theorem. -/
theorem C10_amended_instant_priority_witness :
    (check_instant_response "which cookies do you have").isSome = true ∧
    get_cached_response "r1" [og_item] emptyStore "which cookies do you have" =
      (check_instant_response "which cookies do you have", emptyStore) ∧
    get_cached_response "r1" [og_item] emptyStore "which cookies do you have" =
      get_cached_response "r2" [] emptyStore "which cookies do you have" ∧
    instant_responses.find?
      (fun kr => kr.1.toList == stripStr (lowerStr "Hi!".toList)) = none ∧
    check_instant_response "Hi!" =
      (instant_responses.find? (fun kr =>
        isSubstrOf kr.1.toList (stripStr (lowerStr "Hi!".toList)) ||
        isSubstrOf (stripStr (lowerStr "Hi!".toList)) kr.1.toList)).map (fun kr => kr.2) := by
  refine ⟨by decide,
    (C10_amended_instant_priority.1 "which cookies do you have" "r1" "r2" [og_item] [] emptyStore (by decide)).1,
    (C10_amended_instant_priority.1 "which cookies do you have" "r1" "r2" [og_item] [] emptyStore (by decide)).2,
    by decide,
    C10_amended_instant_priority.2 "Hi!" (by decide)⟩
